import Mathlib

/-!
Verification of the content data model and rendering contract of a
personal blog repository.  The repository ships content entries
(front-matter plus body, `src/data/blog/*.mdx` and three further
articles), a static project listing (`src/data/projectsData.ts`) and a
thin embedded-tweet wrapper (`src/components/Tweet.tsx`).  The loading
and rendering pipeline itself lives in the external site framework, so
those operations are modelled from the specification and are marked as
such in their doc comments.
-/

namespace Blog

/-- Modelled from the spec: the raw front-matter block of a content
entry as parsed from the key-value header of an `.mdx` file.  Each
recognised key may be absent; unrecognised keys are kept verbatim so
that we can state that they are ignored.  (The front-matter parser is
part of the external framework and is not in the repository.) -/
structure RawFrontMatter where
  title : Option String
  date : Option String
  tags : Option (List String)
  draft : Option Bool
  summary : Option String
  unrecognized : List (String × String)
deriving DecidableEq, Repr

/-- Modelled from the spec: a content source file before loading — its
slug (file identity), its front matter and, when present, its body. -/
structure RawEntry where
  slug : String
  fm : RawFrontMatter
  body : Option String
deriving DecidableEq, Repr

/-- A loaded content entry, spec section 3: title, date, tags, draft
flag, summary and body. -/
structure ContentEntry where
  slug : String
  title : String
  date : String
  tags : List String
  draft : Bool
  summary : String
  body : String
deriving DecidableEq, Repr

/-- Error kind for malformed content metadata, spec section 7: a
mandatory front-matter field is missing. -/
inductive ContentMetadataError where
  | missingField (slug : String) (field : String)
deriving DecidableEq, Repr

/-- Modelled from the spec: loading one content entry.  `title`, `date`
and `body` are mandatory and their absence fails with a
`ContentMetadataError`; `tags`, `draft` and `summary` default to
empty/false; unrecognised keys are ignored.  (The loader is part of the
external framework and is not in the repository.) -/
def loadEntry (r : RawEntry) : Except ContentMetadataError ContentEntry :=
  match r.fm.title with
  | none => .error (.missingField r.slug "title")
  | some t =>
    match r.fm.date with
    | none => .error (.missingField r.slug "date")
    | some d =>
      match r.body with
      | none => .error (.missingField r.slug "body")
      | some b =>
        .ok { slug := r.slug, title := t, date := d,
              tags := r.fm.tags.getD [], draft := r.fm.draft.getD false,
              summary := r.fm.summary.getD "", body := b }

/-- Modelled from the spec: loading a collection of content entries.
Each entry is loaded independently; an entry whose load fails is
skipped and its error is reported as a diagnostic, and the failure does
not abort the loading of the other entries.  (The site builder is part
of the external framework and is not in the repository.) -/
def loadAll (rs : List RawEntry) : List ContentEntry × List ContentMetadataError :=
  rs.foldr
    (fun r acc =>
      match loadEntry r with
      | .ok e => (e :: acc.1, acc.2)
      | .error err => (acc.1, err :: acc.2))
    ([], [])

/-- Modelled from the spec: the rendered form of a content entry — an
HTML fragment produced from the body by the external document-rendering
engine plus the extracted metadata summary used on index pages. -/
structure RenderedEntry where
  html : String
  metaTitle : String
  metaDate : String
  metaTags : List String
  metaSummary : String
deriving DecidableEq, Repr

/-- Modelled from the spec: rendering one content entry.  The external
document-rendering engine is abstracted as the function `engine` from
the body text to HTML; the metadata summary is extracted from the
entry.  (The rendering pipeline is part of the external framework and
is not in the repository.) -/
def renderEntry (engine : String → String) (e : ContentEntry) : RenderedEntry :=
  { html := engine e.body, metaTitle := e.title, metaDate := e.date,
    metaTags := e.tags, metaSummary := e.summary }

/-- Modelled from the spec: the public index over loaded entries —
entries with `draft = true` are excluded from public listings.  (Index
assembly is performed by the external framework.) -/
def publicIndex (es : List ContentEntry) : List ContentEntry :=
  es.filter (fun e => !e.draft)

/-- Modelled from the spec: direct addressing of an entry by slug.  A
draft entry is still reachable this way.  (Routing is performed by the
external framework.) -/
def getEntry (es : List ContentEntry) (slug : String) : Option ContentEntry :=
  es.find? (fun e => e.slug == slug)

/-- Modelled from the spec: the full site output from a collection of
raw entries — the rendered form of every entry that loaded
successfully, plus the diagnostics of the entries that did not. -/
def siteOutput (engine : String → String) (rs : List RawEntry) :
    List RenderedEntry × List ContentMetadataError :=
  ((loadAll rs).1.map (renderEntry engine), (loadAll rs).2)

/-- A listing record, from `src/data/projectsData.ts`: interface
`Project` with mandatory `title` and `description` and optional `href`
and `imgSrc`. -/
structure Project where
  title : String
  description : String
  href : Option String
  imgSrc : Option String
deriving DecidableEq, Repr

/-- Modelled from the spec: a listing record before validation — every
field may be absent, as in a plain mapping.  (Listing validation is
described in the spec; only the typed static data is in the
repository.) -/
structure RawListingRecord where
  title : Option String
  description : Option String
  href : Option String
  imgSrc : Option String
deriving DecidableEq, Repr

/-- Error kind for listing records, spec section 7: a missing required
listing field, identified by the offending index. -/
inductive ListingRecordError where
  | missingField (index : Nat) (field : String)
deriving DecidableEq, Repr

/-- Modelled from the spec: validation of one listing record at index
`i`.  A missing mandatory field (`title` or `description`) fails with a
`ListingRecordError` identifying the offending index. -/
def validateRecord (i : Nat) (r : RawListingRecord) :
    Except ListingRecordError Project :=
  match r.title with
  | none => .error (.missingField i "title")
  | some t =>
    match r.description with
    | none => .error (.missingField i "description")
    | some d => .ok { title := t, description := d, href := r.href, imgSrc := r.imgSrc }

/-- Modelled from the spec: validation of a listing starting at index
`i`.  A failing record is skipped with a diagnostic; later records are
still validated. -/
def validateFrom (i : Nat) : List RawListingRecord → List Project × List ListingRecordError
  | [] => ([], [])
  | r :: rs =>
    let rest := validateFrom (i + 1) rs
    match validateRecord i r with
    | .ok p => (p :: rest.1, rest.2)
    | .error e => (rest.1, e :: rest.2)

/-- Modelled from the spec: validation of a whole listing, indices
starting at 0. -/
def validateAll (rs : List RawListingRecord) : List Project × List ListingRecordError :=
  validateFrom 0 rs

/-- Modelled from the spec: one display unit of the listing display —
a card showing title and description, a clickable link when `href` is
present and an image when `imgSrc` is present. -/
structure DisplayUnit where
  title : String
  description : String
  link : Option String
  img : Option String
deriving DecidableEq, Repr

/-- Modelled from the spec: rendering one listing record as a display
card.  (The card template is part of the site layout, which the
specification describes as a pure iteration.) -/
def renderCard (p : Project) : DisplayUnit :=
  { title := p.title, description := p.description, link := p.href, img := p.imgSrc }

/-- Modelled from the spec: rendering a validated listing — one display
unit per record, in input order. -/
def renderListing (ps : List Project) : List DisplayUnit :=
  ps.map renderCard

/-- Modelled from the spec: rendering a raw listing — validate every
record, render the valid ones in order, report the diagnostics. -/
def renderRawListing (rs : List RawListingRecord) :
    List DisplayUnit × List ListingRecordError :=
  (renderListing (validateAll rs).1, (validateAll rs).2)

/-- The static project listing shipped in `src/data/projectsData.ts`,
transcribed field by field (the description keeps the line breaks and
indentation of the template literal in the source). -/
def projectsData : List Project :=
  [{ title := "stash-it",
     description := "@stash-it is a simple, yet powerful, key-value storage library. It is designed to be easy to use and\n    to have a clear API. It is also extensible, so you can create your own adapters and use them with @stash-it. \n    The storage of your choice is not supported (yet)? No problem, you can create an adapter for it and use it with\n    @stash-it.",
     href := some "https://jsr.io/@stash-it/stash-it",
     imgSrc := some "/static/images/stash-it-logo.png" }]

/-- The shipped listing data in raw form, before validation: the same
records with every provided field wrapped in `some`. -/
def projectsDataRaw : List RawListingRecord :=
  projectsData.map (fun p =>
    { title := some p.title, description := some p.description,
      href := p.href, imgSrc := p.imgSrc })

/-- The shipped content entries of the repository in raw form: the slug
and the complete front-matter block of each of the eleven article
files, transcribed key by key (YAML quoting stripped).  Every file also
has a non-empty body; the bodies are abbreviated here to their opening
line, which is all the stated properties depend on (presence). -/
def shippedRawEntries : List RawEntry :=
  [{ slug := "dont-write-error-messages-that-suck",
     fm := { title := some "Don't write error messages that suck",
             date := some "2024-03-06",
             tags := some ["programming", "naming things", "errors"],
             draft := some false,
             summary := some "\"Something went wrong, please try again.\" - Meaning what?",
             unrecognized := [] },
     body := some "# Evolution of an error message" },
   { slug := "explicit-return-types",
     fm := { title := some "Explicit return types",
             date := some "2024-03-03",
             tags := some ["typescript", "interface", "programming"],
             draft := some false,
             summary := some "I believe it is important to create explicit return types. Here's why.",
             unrecognized := [] },
     body := some "## Word about APIs" },
   { slug := "how-to-create-a-plugin-for-stash-it",
     fm := { title := some "How to create a plugin for stash-it",
             date := some "2024-09-20",
             tags := some ["stash-it", "how to", "plugin"],
             draft := some false,
             summary := some "In my last post I introduced stash-it and briefly explained how it works. Now it's time to build a plugin for it.",
             unrecognized := [] },
     body := some "In this blogpost I will try to explain the core functionality of stash-it, and what makes it so powerful," },
   { slug := "introducing-stash-it",
     fm := { title := some "Introducing stash-it",
             date := some "2024-08-31",
             tags := some ["stash-it", "jsr", "npm", "module", "library", "open-source"],
             draft := some false,
             summary := some "I created a library that helps you to store data in any storage. It's called stash-it. And here's why I did it, and why it stands out (I think).",
             unrecognized := [] },
     body := some "![stash-it logo](https://user-images.githubusercontent.com/1819138/30385483-99fd209c-98a7-11e7-85e2-595791d8d894.png)" },
   { slug := "margins-are-not-scalable",
     fm := { title := some "Margins are not scalable",
             date := some "2024-03-07",
             tags := some ["CSS", "design", "anti-pattern"],
             draft := some false,
             summary := some "Let me stretch my arms and legs (pun intended), and I will tell you why margins, paddings, and some other stuff, are not scalable.",
             unrecognized := [] },
     body := some "# margin: 10px" },
   { slug := "the-cost-of-a-bad-variable-name",
     fm := { title := some "The cost of a (bad) variable name",
             date := some "2024-07-28",
             tags := some ["variable", "name", "naming"],
             draft := some false,
             summary := some "Why investing in creation of good names for things will pay off in a long run.",
             unrecognized := [] },
     body := some "> There are only two hard things in Computer Science: cache invalidation and naming things." },
   { slug := "using-language-of-the-domain-to-avoid-confusion",
     fm := { title := some "Using language of the domain to avoid confusion",
             date := some "2024-03-02",
             tags := some ["domain", "language", "naming"],
             draft := some false,
             summary := some "Why is it important to use the same vocabulary in the code as the one in verbal communication about the product in the domain.",
             unrecognized := [] },
     body := some "# Offer, product, shop item" },
   { slug := "using-tdd-to-discuss-components-api",
     fm := { title := some "Using TDD to discuss component's API",
             date := some "2024-03-01",
             tags := some ["TDD", "API", "design"],
             draft := some false,
             summary := some "How to use TDD for designing and discussing the design of a component's API.",
             unrecognized := [] },
     body := some "# Introduction" },
   { slug := "unnamed/part_000",
     fm := { title := some "One thing I would welcome in JS that PHP has",
             date := some "2024-03-08",
             tags := some ["JavaScript", "TypeScript", "PHP", "interface"],
             draft := some false,
             summary := some "This is not about the language, but something the community created for its users.",
             unrecognized := [] },
     body := some "# Wild, wild west" },
   { slug := "unnamed/part_001",
     fm := { title := some "Validate incoming and outgoing data",
             date := some "2024-03-04",
             tags := some ["validation", "schema", "typescript"],
             draft := some false,
             summary := some "We all know we can't trust any incoming data. But what about the data we send back?",
             unrecognized := [] },
     body := some "# Trust nobody" },
   { slug := "unnamed/part_002",
     fm := { title := some "How to check if MySQL in Docker is ready before interacting with it?",
             date := some "2024-11-28",
             tags := some ["docker", "how to", "MySQL"],
             draft := some false,
             summary := some "Can you make dockerized MySQL be ready for interacting with it? Yes, you can. Here's how.",
             unrecognized := [] },
     body := some "**UPDATE** See the end of the post, for an update." }]

/-- Rendering the same content entry twice with no changes in between:
the pair of the two render results. -/
def renderTwice (engine : String → String) (e : ContentEntry) :
    RenderedEntry × RenderedEntry :=
  (renderEntry engine e, renderEntry engine e)

/-- The two-record listing of the worked example in the spec: a record
titled "A" with description "d1" and no link, followed by a record
titled "B" with description "d2" and href "https://x". -/
def exampleListing : List RawListingRecord :=
  [{ title := some "A", description := some "d1", href := none, imgSrc := none },
   { title := some "B", description := some "d2", href := some "https://x", imgSrc := none }]

/-- A sample loaded entry that is not a draft (witness material). -/
def sampleEntryLive : ContentEntry :=
  { slug := "live", title := "L", date := "2024-01-01", tags := [],
    draft := false, summary := "", body := "b" }

/-- A sample loaded entry flagged as a draft (witness material). -/
def sampleEntryDraft : ContentEntry :=
  { slug := "hidden", title := "H", date := "2024-01-02", tags := [],
    draft := true, summary := "", body := "b" }

/-- A sample raw entry whose front matter lacks `title` (witness
material). -/
def entryMissingTitle : RawEntry :=
  { slug := "bad",
    fm := { title := none, date := some "2024-01-01", tags := none,
            draft := none, summary := none, unrecognized := [] },
    body := some "x" }

/-- A sample raw entry with complete mandatory fields (witness
material). -/
def entryValid : RawEntry :=
  { slug := "good",
    fm := { title := some "T", date := some "2024-01-02", tags := some ["t"],
            draft := some false, summary := some "s", unrecognized := [] },
    body := some "y" }

/-- A sample raw entry carrying only the mandatory fields (witness
material). -/
def minimalEntry : RawEntry :=
  { slug := "minimal",
    fm := { title := some "M", date := some "2024-01-03", tags := none,
            draft := none, summary := none, unrecognized := [] },
    body := some "z" }

/-- A sample raw listing whose first record lacks `description` and
whose second record is valid (witness material). -/
def badListing : List RawListingRecord :=
  [{ title := some "A", description := none, href := none, imgSrc := none },
   { title := some "B", description := some "d", href := none, imgSrc := none }]

/-- A sample raw listing whose first record lacks `title` and whose
second record is valid (witness material). -/
def badTitleListing : List RawListingRecord :=
  [{ title := none, description := some "d0", href := none, imgSrc := none },
   { title := some "C", description := some "d2", href := none, imgSrc := none }]

end Blog

namespace TweetWidget

/-- The properties accepted by the third-party tweet component
(`react-tweet`), as used by `src/components/Tweet.tsx`: the wrapper
never inspects them, it spreads them through unchanged. -/
structure TweetProps where
  id : Option String
  apiUrl : Option String
deriving DecidableEq, Repr

/-- A rendered react node, restricted to the shapes produced by
`src/components/Tweet.tsx`: a `div` with a class name and children, or
an invocation of the third-party tweet component with its props. -/
inductive ReactNode where
  | div (className : String) (children : List ReactNode)
  | tweetComponent (props : TweetProps)

/-- `EmbeddedTweet` from `src/components/Tweet.tsx`: wraps the
third-party component in a `div` with class `not-prose system`,
spreading all props through unchanged. -/
def EmbeddedTweet (props : TweetProps) : ReactNode :=
  .div "not-prose system" [.tweetComponent props]

/-- The props handed to the third-party component inside a node, when
the node is a chain of single-child containers around one component
invocation. -/
def innerProps : ReactNode → Option TweetProps
  | .tweetComponent p => some p
  | .div _ [c] => innerProps c
  | .div _ _ => none

/-- The class of the enclosing container of a node, when the node is a
container. -/
def containerClass : ReactNode → Option String
  | .div c _ => some c
  | .tweetComponent _ => none

end TweetWidget

namespace Blog

theorem loadAll_cons (r : RawEntry) (rs : List RawEntry) :
    loadAll (r :: rs) =
      match loadEntry r with
      | .ok e => (e :: (loadAll rs).1, (loadAll rs).2)
      | .error err => ((loadAll rs).1, err :: (loadAll rs).2) := rfl

theorem mem_loadAll_fst {rs : List RawEntry} {e : ContentEntry} :
    e ∈ (loadAll rs).1 ↔ ∃ r ∈ rs, loadEntry r = .ok e := by
  induction rs with
  | nil => simp [loadAll]
  | cons r rs ih =>
    rw [loadAll_cons]
    cases h : loadEntry r with
    | ok e0 =>
      simp only [List.mem_cons, ih, List.mem_cons]
      constructor
      · rintro (rfl | ⟨r', hr', hr'e⟩)
        · exact ⟨r, Or.inl rfl, h⟩
        · exact ⟨r', Or.inr hr', hr'e⟩
      · rintro ⟨r', hr' | hr', hr'e⟩
        · subst hr'
          rw [h] at hr'e
          exact Or.inl (Except.ok.inj hr'e).symm
        · exact Or.inr ⟨r', hr', hr'e⟩
    | error err =>
      simp only [ih, List.mem_cons]
      constructor
      · rintro ⟨r', hr', hr'e⟩
        exact ⟨r', Or.inr hr', hr'e⟩
      · rintro ⟨r', hr' | hr', hr'e⟩
        · subst hr'
          rw [h] at hr'e
          exact absurd hr'e (by simp)
        · exact ⟨r', hr', hr'e⟩

theorem mem_loadAll_snd {rs : List RawEntry} {err : ContentMetadataError} :
    err ∈ (loadAll rs).2 ↔ ∃ r ∈ rs, loadEntry r = .error err := by
  induction rs with
  | nil => simp [loadAll]
  | cons r rs ih =>
    rw [loadAll_cons]
    cases h : loadEntry r with
    | ok e0 =>
      simp only [ih, List.mem_cons]
      constructor
      · rintro ⟨r', hr', hr'e⟩
        exact ⟨r', Or.inr hr', hr'e⟩
      · rintro ⟨r', hr' | hr', hr'e⟩
        · subst hr'
          rw [h] at hr'e
          exact absurd hr'e (by simp)
        · exact ⟨r', hr', hr'e⟩
    | error e0 =>
      simp only [List.mem_cons, ih, List.mem_cons]
      constructor
      · rintro (rfl | ⟨r', hr', hr'e⟩)
        · exact ⟨r, Or.inl rfl, h⟩
        · exact ⟨r', Or.inr hr', hr'e⟩
      · rintro ⟨r', hr' | hr', hr'e⟩
        · subst hr'
          rw [h] at hr'e
          exact Or.inl (Except.error.inj hr'e).symm
        · exact Or.inr ⟨r', hr', hr'e⟩

theorem validateFrom_cons (i : Nat) (r : RawListingRecord) (rs : List RawListingRecord) :
    validateFrom i (r :: rs) =
      match validateRecord i r with
      | .ok p => (p :: (validateFrom (i + 1) rs).1, (validateFrom (i + 1) rs).2)
      | .error e => ((validateFrom (i + 1) rs).1, e :: (validateFrom (i + 1) rs).2) := rfl

theorem validateFrom_snd_mem {e : ListingRecordError} :
    ∀ (rs : List RawListingRecord) (i j : Nat) (h : j < rs.length),
      validateRecord (i + j) (rs.get ⟨j, h⟩) = .error e → e ∈ (validateFrom i rs).2 := by
  intro rs
  induction rs with
  | nil => intro i j h; exact absurd h (by simp)
  | cons r rs ih =>
    intro i j h heq
    rw [validateFrom_cons]
    cases j with
    | zero =>
      simp only [Nat.add_zero, List.get] at heq
      rw [heq]
      exact List.mem_cons_self _ _
    | succ j =>
      have h' : j < rs.length := Nat.lt_of_succ_lt_succ h
      have heq' : validateRecord ((i + 1) + j) (rs.get ⟨j, h'⟩) = .error e := by
        have harith : i + (j + 1) = (i + 1) + j := by omega
        simpa [harith] using heq
      have hm := ih (i + 1) j h' heq'
      cases hv : validateRecord i r with
      | ok p => exact hm
      | error e0 => exact List.mem_cons_of_mem _ hm

theorem validateFrom_fst_mem {p : Project} :
    ∀ (rs : List RawListingRecord) (i j : Nat) (h : j < rs.length),
      validateRecord (i + j) (rs.get ⟨j, h⟩) = .ok p → p ∈ (validateFrom i rs).1 := by
  intro rs
  induction rs with
  | nil => intro i j h; exact absurd h (by simp)
  | cons r rs ih =>
    intro i j h heq
    rw [validateFrom_cons]
    cases j with
    | zero =>
      simp only [Nat.add_zero, List.get] at heq
      rw [heq]
      exact List.mem_cons_self _ _
    | succ j =>
      have h' : j < rs.length := Nat.lt_of_succ_lt_succ h
      have heq' : validateRecord ((i + 1) + j) (rs.get ⟨j, h'⟩) = .ok p := by
        have harith : i + (j + 1) = (i + 1) + j := by omega
        simpa [harith] using heq
      have hm := ih (i + 1) j h' heq'
      cases hv : validateRecord i r with
      | ok p0 => exact List.mem_cons_of_mem _ hm
      | error e0 => exact hm

/-- C1: a content entry with `draft = false` appears in the rendered
public index; one with `draft = true` is excluded from the public index
listing but remains reachable when directly addressed by its slug. -/
theorem draft_excluded_from_index (es : List ContentEntry) (e : ContentEntry)
    (he : e ∈ es) :
    (e.draft = false → e ∈ publicIndex es) ∧
    (e.draft = true → e ∉ publicIndex es) ∧
    (getEntry es e.slug).isSome = true := by
  refine ⟨?_, ?_, ?_⟩
  · intro hd
    simp [publicIndex, List.mem_filter, he, hd]
  · intro hd hmem
    simp [publicIndex, List.mem_filter, hd] at hmem
  · cases hf : getEntry es e.slug with
    | some e0 => rfl
    | none =>
      rw [getEntry, List.find?_eq_none] at hf
      exact absurd (by simp) (hf e he)

/-- C1 witness: in a concrete two-entry collection, the live entry is
listed, the draft entry is not, and the draft entry is still directly
addressable. -/
theorem draft_excluded_from_index_witness :
    sampleEntryLive ∈ publicIndex [sampleEntryLive, sampleEntryDraft] ∧
    sampleEntryDraft ∉ publicIndex [sampleEntryLive, sampleEntryDraft] ∧
    (getEntry [sampleEntryLive, sampleEntryDraft] sampleEntryDraft.slug).isSome = true := by
  have h1 := draft_excluded_from_index [sampleEntryLive, sampleEntryDraft]
    sampleEntryLive (by decide)
  have h2 := draft_excluded_from_index [sampleEntryLive, sampleEntryDraft]
    sampleEntryDraft (by decide)
  exact ⟨h1.1 rfl, h2.2.1 rfl, h2.2.2⟩

/-- C3: rendering a listing produces exactly one display unit per
record, and the output order equals the input order (the unit at every
position comes from the record at the same position). -/
theorem listing_one_unit_per_record_in_order (ps : List Project) (k : Nat) :
    (renderListing ps).length = ps.length ∧
    (renderListing ps)[k]? = (ps[k]?).map renderCard := by
  constructor
  · simp [renderListing]
  · simp [renderListing]

/-- C5: the embedded external content widget passes all input
properties through to the third-party component unchanged, and always
wraps it in the same stable enclosing container (a `div` of class
`not-prose system`, independent of the props). -/
theorem embedded_tweet_passthrough_and_container (p q : TweetWidget.TweetProps) :
    TweetWidget.innerProps (TweetWidget.EmbeddedTweet p) = some p ∧
    TweetWidget.containerClass (TweetWidget.EmbeddedTweet p) = some "not-prose system" ∧
    TweetWidget.containerClass (TweetWidget.EmbeddedTweet p) =
      TweetWidget.containerClass (TweetWidget.EmbeddedTweet q) := by
  exact ⟨rfl, rfl, rfl⟩

/-- C7: rendering the same content entry twice with no changes produces
identical output, HTML included (rendering is deterministic). -/
theorem render_entry_idempotent (engine : String → String) (e : ContentEntry) :
    (renderTwice engine e).1 = (renderTwice engine e).2 ∧
    (renderTwice engine e).1.html = (renderTwice engine e).2.html := by
  exact ⟨rfl, rfl⟩

/-- C8: rendering the example two-record listing produces exactly two
display units, in order A then B, where B carries a clickable link and
A does not. -/
theorem example_listing_two_units :
    (renderRawListing exampleListing).1 =
      [{ title := "A", description := "d1", link := none, img := none },
       { title := "B", description := "d2", link := some "https://x", img := none }] ∧
    (renderRawListing exampleListing).1.length = 2 ∧
    ((renderRawListing exampleListing).1[0]?.map DisplayUnit.link) = some none ∧
    ((renderRawListing exampleListing).1[1]?.map DisplayUnit.link) = some (some "https://x") := by
  exact ⟨rfl, rfl, rfl, rfl⟩

/-- C2: loading an entry whose front matter lacks `title` fails with a
`ContentMetadataError`, the entry is skipped with a diagnostic and
contributes nothing to the output, and every other valid entry still
renders. -/
theorem missing_title_entry_skipped (engine : String → String)
    (rs : List RawEntry) (r : RawEntry) (hr : r ∈ rs) (ht : r.fm.title = none) :
    loadEntry r = .error (.missingField r.slug "title") ∧
    ContentMetadataError.missingField r.slug "title" ∈ (siteOutput engine rs).2 ∧
    (∀ r' ∈ rs, ∀ e, loadEntry r' = .ok e →
       renderEntry engine e ∈ (siteOutput engine rs).1) ∧
    (∀ re ∈ (siteOutput engine rs).1,
       ∃ r' ∈ rs, ∃ e, loadEntry r' = .ok e ∧ re = renderEntry engine e) := by
  have herr : loadEntry r = .error (.missingField r.slug "title") := by
    simp [loadEntry, ht]
  refine ⟨herr, ?_, ?_, ?_⟩
  · exact mem_loadAll_snd.mpr ⟨r, hr, herr⟩
  · intro r' hr' e he
    exact List.mem_map_of_mem _ (mem_loadAll_fst.mpr ⟨r', hr', he⟩)
  · intro re hre
    obtain ⟨e, he, hee⟩ := List.mem_map.mp hre
    obtain ⟨r', hr', he'⟩ := mem_loadAll_fst.mp he
    exact ⟨r', hr', e, he', hee.symm⟩

/-- C2 witness: for the concrete collection of one title-less entry and
one valid entry, the diagnostic is reported and the valid entry still
renders. -/
theorem missing_title_entry_skipped_witness :
    ContentMetadataError.missingField "bad" "title" ∈
      (siteOutput id [entryMissingTitle, entryValid]).2 ∧
    renderEntry id { slug := "good", title := "T", date := "2024-01-02",
                     tags := ["t"], draft := false, summary := "s", body := "y" } ∈
      (siteOutput id [entryMissingTitle, entryValid]).1 := by
  have h := missing_title_entry_skipped id [entryMissingTitle, entryValid]
    entryMissingTitle (List.mem_cons_self _ _) rfl
  exact ⟨h.2.1, h.2.2.1 entryValid (by decide) _ rfl⟩

theorem validateRecord_missing (i : Nat) (r : RawListingRecord)
    (hmiss : r.title = none ∨ r.description = none) :
    validateRecord i r =
      .error (.missingField i (if r.title = none then "title" else "description")) := by
  cases ho : r.title with
  | none => simp [validateRecord, ho]
  | some t =>
    have hd : r.description = none := by
      cases hmiss with
      | inl h1 => rw [ho] at h1; exact absurd h1 (by simp)
      | inr h2 => exact h2
    simp [validateRecord, ho, hd]

/-- C4: a listing record missing a mandatory field (`title` or
`description`) fails with a `ListingRecordError` identifying the
offending index, the record is skipped (it is never accepted as a
project), and every subsequent valid record still renders. -/
theorem missing_mandatory_listing_field_skipped (rs : List RawListingRecord) (i : Nat)
    (h : i < rs.length)
    (hmiss : (rs.get ⟨i, h⟩).title = none ∨ (rs.get ⟨i, h⟩).description = none) :
    validateRecord i (rs.get ⟨i, h⟩) =
      .error (.missingField i
        (if (rs.get ⟨i, h⟩).title = none then "title" else "description")) ∧
    ListingRecordError.missingField i
        (if (rs.get ⟨i, h⟩).title = none then "title" else "description") ∈
      (renderRawListing rs).2 ∧
    (∀ p, validateRecord i (rs.get ⟨i, h⟩) ≠ .ok p) ∧
    (∀ j, ∀ hj : j < rs.length, ∀ p, i < j →
       validateRecord j (rs.get ⟨j, hj⟩) = .ok p →
       renderCard p ∈ (renderRawListing rs).1) := by
  have herr := validateRecord_missing i (rs.get ⟨i, h⟩) hmiss
  refine ⟨herr, ?_, ?_, ?_⟩
  · have := validateFrom_snd_mem rs 0 i h (by simpa using herr)
    exact this
  · intro p hp
    rw [herr] at hp
    exact absurd hp (by simp)
  · intro j hj p _ hok
    have hm := validateFrom_fst_mem rs 0 j hj (by simpa using hok)
    exact List.mem_map_of_mem _ hm

/-- C4 witness: for the concrete listing whose record at index 0 lacks
`description` (and, in a second concrete listing, lacks `title`), the
error naming index 0 and the missing field is reported and the valid
record at index 1 still renders, in both listings. -/
theorem missing_mandatory_listing_field_skipped_witness :
    ListingRecordError.missingField 0 "description" ∈ (renderRawListing badListing).2 ∧
    renderCard { title := "B", description := "d", href := none, imgSrc := none } ∈
      (renderRawListing badListing).1 ∧
    ListingRecordError.missingField 0 "title" ∈ (renderRawListing badTitleListing).2 ∧
    renderCard { title := "C", description := "d2", href := none, imgSrc := none } ∈
      (renderRawListing badTitleListing).1 := by
  have h1 := missing_mandatory_listing_field_skipped badListing 0 (by decide) (Or.inr rfl)
  have h2 := missing_mandatory_listing_field_skipped badTitleListing 0 (by decide) (Or.inl rfl)
  refine ⟨?_, ?_, ?_, ?_⟩
  · simpa [badListing] using h1.2.1
  · exact h1.2.2.2 1 (by decide) _ (by decide) rfl
  · simpa [badTitleListing] using h2.2.1
  · exact h2.2.2.2 1 (by decide) _ (by decide) rfl

/-- C6: `title`, `date` and `body` are mandatory (loading succeeds
exactly when all three are present); `tags`, `draft` and `summary`
default to empty/false when absent; unrecognised front-matter keys are
ignored by loading. -/
theorem mandatory_fields_and_defaults (r : RawEntry) (u : List (String × String)) :
    ((loadEntry r).isOk = true ↔
       (r.fm.title ≠ none ∧ r.fm.date ≠ none ∧ r.body ≠ none)) ∧
    (∀ e, loadEntry r = .ok e →
       e.tags = r.fm.tags.getD [] ∧ e.draft = r.fm.draft.getD false ∧
       e.summary = r.fm.summary.getD "") ∧
    loadEntry { r with fm := { r.fm with unrecognized := u } } = loadEntry r := by
  refine ⟨?_, ?_, ?_⟩
  · cases h1 : r.fm.title with
    | none => simp [loadEntry, h1, Except.isOk, Except.toBool]
    | some t =>
      cases h2 : r.fm.date with
      | none => simp [loadEntry, h1, h2, Except.isOk, Except.toBool]
      | some d =>
        cases h3 : r.body with
        | none => simp [loadEntry, h1, h2, h3, Except.isOk, Except.toBool]
        | some b => simp [loadEntry, h1, h2, h3, Except.isOk, Except.toBool]
  · intro e he
    cases h1 : r.fm.title with
    | none => rw [loadEntry, h1] at he; exact absurd he (by simp)
    | some t =>
      cases h2 : r.fm.date with
      | none => rw [loadEntry, h1, h2] at he; exact absurd he (by simp)
      | some d =>
        cases h3 : r.body with
        | none => rw [loadEntry, h1, h2, h3] at he; exact absurd he (by simp)
        | some b =>
          rw [loadEntry, h1, h2, h3] at he
          have := Except.ok.inj he
          subst this
          exact ⟨rfl, rfl, rfl⟩
  · rw [loadEntry, loadEntry]

/-- C6 witness: the minimal concrete entry carrying only the mandatory
fields loads successfully, and adding an unrecognised key changes
nothing. -/
theorem mandatory_fields_and_defaults_witness :
    (loadEntry minimalEntry).isOk = true ∧
    loadEntry { minimalEntry with
                fm := { minimalEntry.fm with unrecognized := [("x", "y")] } } =
      loadEntry minimalEntry := by
  have h := mandatory_fields_and_defaults minimalEntry [("x", "y")]
  exact ⟨h.1.mpr ⟨by decide, by decide, by decide⟩, h.2.2⟩

/-- C9: every record of the shipped `projectsData` has `title` and
`description` present and non-empty, so validating and rendering the
shipped listing reports no `ListingRecordError` and renders every
record. -/
theorem shipped_projects_listing_never_fails :
    (projectsDataRaw.all fun r =>
       !(r.title.getD "" == "") && !(r.description.getD "" == "")) = true ∧
    (renderRawListing projectsDataRaw).2 = [] ∧
    (renderRawListing projectsDataRaw).1.length = projectsDataRaw.length := by
  exact ⟨rfl, rfl, rfl⟩

/-- C10: every shipped content entry supplies all five front-matter
keys with `draft = false`, so loading reports no diagnostic, every
entry loads, and the public index contains every shipped entry. -/
theorem shipped_entries_all_public :
    (shippedRawEntries.all fun r =>
       r.fm.title.isSome && r.fm.date.isSome && r.fm.tags.isSome &&
       r.fm.draft.isSome && r.fm.summary.isSome) = true ∧
    (shippedRawEntries.all fun r => r.fm.draft == some false) = true ∧
    (loadAll shippedRawEntries).2 = [] ∧
    (loadAll shippedRawEntries).1.length = shippedRawEntries.length ∧
    publicIndex (loadAll shippedRawEntries).1 = (loadAll shippedRawEntries).1 := by
  exact ⟨rfl, rfl, rfl, rfl, rfl⟩

end Blog
